import Mathlib

/-
Verification of the chat-templates library (src/src/lib.rs).

The library renders a list of role-tagged messages into a single prompt
string using one of three fixed minijinja templates (ChatML, Mistral
instruct, TAIDE).  The embedding below models:

  - the Message data model (lib.rs lines 4-8);
  - the three template constants (lib.rs lines 13, 17, 23) as pre-parsed
    trees of the minijinja fragment they use (literals, variable
    interpolation, field access, indexing, slicing, string concatenation,
    equality tests, for-loops with loop.index0, if/elif/else, set);
  - the minijinja evaluation engine restricted to that fragment, with the
    default lenient undefined-value semantics of the minijinja dependency:
    a missing context variable is the undefined value, an out-of-range
    list index yields the undefined value, printing undefined yields the
    empty string, testing undefined for truth yields false, but reading a
    field of an undefined value is an evaluation error;
  - the registry plumbing (Environment::new, add_template, get_template,
    render) and the error enums of lib.rs lines 116-155, with each apply
    function building a fresh environment per call as in lib.rs.
-/

namespace ChatTemplates

/-- A conversational turn: lib.rs lines 4-8. -/
structure Message where
  role : String
  content : String
deriving DecidableEq, Repr

/-- Runtime values of the template engine, restricted to the kinds the
three templates can produce: strings, booleans, integers, a message
object, a list of messages, the loop state object, and the undefined
value that minijinja uses for missing lookups. -/
inductive Value where
  | vStr (s : String)
  | vBool (b : Bool)
  | vInt (n : Int)
  | vMsg (m : Message)
  | vList (l : List Message)
  | vLoop (index0 : Nat)
  | vUndefined
deriving DecidableEq, Repr

/-- Expressions of the minijinja fragment used by the three templates. -/
inductive Expr where
  | lit (s : String)
  | litInt (n : Int)
  | var (x : String)
  | getItem (e : Expr) (key : String)
  | index (e : Expr) (i : Nat)
  | slice (e : Expr) (start : Nat)
  | add (a b : Expr)
  | eq (a b : Expr)
deriving Repr

/-- Statements of the minijinja fragment used by the three templates:
expression output, set, for-loops, and if/elif/else chains. -/
inductive Stmt where
  | emit (e : Expr)
  | setVar (x : String) (e : Expr)
  | forLoop (x : String) (seq : Expr) (body : List Stmt)
  | ifElse (branches : List (Expr × List Stmt)) (els : List Stmt)
deriving Repr

/-- Error kinds of the minijinja engine that this fragment can surface. -/
inductive MJErrorKind where
  | templateNotFound
  | undefinedError
  | invalidOperation
deriving DecidableEq, Repr

/-- One lexical scope: a mapping from names to values. -/
abbrev Frame := List (String × Value)

/-- The evaluation environment: a stack of scopes, innermost first. -/
abbrev Env := List Frame

def lookupFrame : Frame → String → Option Value
  | [], _ => none
  | (k, v) :: rest, x => if k = x then some v else lookupFrame rest x

/-- Variable lookup walks the scope stack outwards; a name bound nowhere
is the undefined value (minijinja default behavior, not an error). -/
def lookupVar : Env → String → Value
  | [], _ => .vUndefined
  | f :: rest, x =>
    match lookupFrame f x with
    | some v => v
    | none => lookupVar rest x

/-- A set statement binds in the innermost scope. -/
def setInHead : Env → String → Value → Env
  | [], x, v => [[(x, v)]]
  | f :: rest, x, v => ((x, v) :: f) :: rest

/-- Truth test used by if: undefined is falsy under the default lenient
behavior, a bool is itself, other values by non-emptiness. -/
def truthy : Value → Bool
  | .vStr s => !(s == "")
  | .vBool b => b
  | .vInt n => !(n == 0)
  | .vList l => !l.isEmpty
  | .vMsg _ => true
  | .vLoop _ => true
  | .vUndefined => false

/-- Printing a value into the output stream: strings verbatim, undefined
as the empty string (default lenient behavior).  The remaining kinds are
never emitted by the three templates. -/
def printValue : Value → String
  | .vStr s => s
  | .vBool b => if b then "true" else "false"
  | .vInt n => toString n
  | .vMsg _ => ""
  | .vList _ => ""
  | .vLoop _ => ""
  | .vUndefined => ""

/-- Equality test of the template language: same-kind values compare
componentwise, different kinds compare unequal, undefined equals only
undefined.  Comparison with undefined is not an error. -/
def valueEq : Value → Value → Bool
  | .vStr a, .vStr b => a == b
  | .vInt a, .vInt b => a == b
  | .vBool a, .vBool b => a == b
  | .vUndefined, .vUndefined => true
  | _, _ => false

/-- Subscripting with a string key.  Reading a field of the undefined
value is an error under the default lenient behavior (only the opt-in
chainable behavior would allow it); a missing field of a defined value
is merely undefined. -/
def getItemVal : Value → String → Except MJErrorKind Value
  | .vUndefined, _ => .error .undefinedError
  | .vMsg m, k =>
    .ok (if k = "role" then .vStr m.role
         else if k = "content" then .vStr m.content
         else .vUndefined)
  | .vLoop i, k => .ok (if k = "index0" then .vInt (Int.ofNat i) else .vUndefined)
  | _, _ => .ok .vUndefined

/-- Subscripting with an integer index.  An out-of-range index into a
defined list yields the undefined value; indexing the undefined value is
an error. -/
def indexVal : Value → Nat → Except MJErrorKind Value
  | .vUndefined, _ => .error .undefinedError
  | .vList l, i =>
    .ok (match l[i]? with
         | some m => .vMsg m
         | none => .vUndefined)
  | _, _ => .ok .vUndefined

/-- Slicing a list from a start offset. -/
def sliceVal : Value → Nat → Except MJErrorKind Value
  | .vList l, n => .ok (.vList (l.drop n))
  | .vUndefined, _ => .error .undefinedError
  | _, _ => .error .invalidOperation

/-- The plus operator: string concatenation; anything else the three
templates never build is an invalid operation. -/
def addVal : Value → Value → Except MJErrorKind Value
  | .vStr a, .vStr b => .ok (.vStr (a ++ b))
  | _, _ => .error .invalidOperation

/-- Expression evaluation. -/
def evalExpr : Expr → Env → Except MJErrorKind Value
  | .lit s, _ => .ok (.vStr s)
  | .litInt n, _ => .ok (.vInt n)
  | .var x, env => .ok (lookupVar env x)
  | .getItem e k, env =>
    match evalExpr e env with
    | .error er => .error er
    | .ok v => getItemVal v k
  | .index e i, env =>
    match evalExpr e env with
    | .error er => .error er
    | .ok v => indexVal v i
  | .slice e n, env =>
    match evalExpr e env with
    | .error er => .error er
    | .ok v => sliceVal v n
  | .add a b, env =>
    match evalExpr a env with
    | .error er => .error er
    | .ok va =>
      match evalExpr b env with
      | .error er => .error er
      | .ok vb => addVal va vb
  | .eq a b, env =>
    match evalExpr a env with
    | .error er => .error er
    | .ok va =>
      match evalExpr b env with
      | .error er => .error er
      | .ok vb => .ok (.vBool (valueEq va vb))

mutual

/-- Run a statement sequence, threading the environment (set statements
persist to later statements of the same block) and concatenating output
in order. -/
def evalStmts : List Stmt → Env → Except MJErrorKind (Env × String)
  | [], env => .ok (env, "")
  | s :: rest, env =>
    match evalStmt s env with
    | .error e => .error e
    | .ok (env1, out1) =>
      match evalStmts rest env1 with
      | .error e => .error e
      | .ok (env2, out2) => .ok (env2, out1 ++ out2)
termination_by l _ => (sizeOf l, 0)

/-- Run one statement. -/
def evalStmt : Stmt → Env → Except MJErrorKind (Env × String)
  | .emit e, env =>
    match evalExpr e env with
    | .error er => .error er
    | .ok v => .ok (env, printValue v)
  | .setVar x e, env =>
    match evalExpr e env with
    | .error er => .error er
    | .ok v => .ok (setInHead env x v, "")
  | .forLoop x seqE body, env =>
    match evalExpr seqE env with
    | .error er => .error er
    | .ok (.vList l) =>
      match evalForLoop x l 0 body env with
      | .error er => .error er
      | .ok out => .ok (env, out)
    | .ok .vUndefined => .ok (env, "")
    | .ok _ => .error .invalidOperation
  | .ifElse branches els, env => evalIf branches els env
termination_by s _ => (sizeOf s, 0)

/-- Iterate a for-loop body over the elements of a list; each iteration
runs in a fresh scope binding the loop variable and the loop state with
the zero-based index, discarded when the iteration ends. -/
def evalForLoop : String → List Message → Nat → List Stmt → Env → Except MJErrorKind String
  | _, [], _, _, _ => .ok ""
  | x, m :: rest, i, body, env =>
    match evalStmts body ([(x, .vMsg m), ("loop", .vLoop i)] :: env) with
    | .error e => .error e
    | .ok (_, out1) =>
      match evalForLoop x rest (i + 1) body env with
      | .error e => .error e
      | .ok out2 => .ok (out1 ++ out2)
termination_by _ msgs _ body _ => (sizeOf body, msgs.length)

/-- Run an if/elif/else chain: the first branch whose condition is truthy
runs; with no truthy condition the else block runs. -/
def evalIf : List (Expr × List Stmt) → List Stmt → Env → Except MJErrorKind (Env × String)
  | [], els, env => evalStmts els env
  | (c, body) :: rest, els, env =>
    match evalExpr c env with
    | .error er => .error er
    | .ok v =>
      match truthy v with
      | true => evalStmts body env
      | false => evalIf rest els env
termination_by branches els _ => (sizeOf branches + sizeOf els, 0)

end

/-- A parsed template is its statement sequence. -/
abbrev Template := List Stmt

/-- The template registry: named parsed templates (minijinja Environment). -/
abbrev Environment := List (String × Template)

/-- Environment::new in lib.rs: a fresh, empty registry. -/
def Environment.new : Environment := []

def envFind : Environment → String → Option Template
  | [], _ => none
  | (k, t) :: rest, n => if k = n then some t else envFind rest n

/-- env.add_template: registers a parsed template under a name.  The three
templates of lib.rs are fixed valid constants, so registration succeeds. -/
def addTemplate (env : Environment) (name : String) (t : Template) :
    Except MJErrorKind Environment :=
  .ok ((name, t) :: env)

/-- env.get_template: resolves a name in the registry. -/
def getTemplate (env : Environment) (name : String) :
    Except MJErrorKind Template :=
  match envFind env name with
  | some t => .ok t
  | none => .error .templateNotFound

/-- template.render: evaluates the template statements against a context
frame and returns the assembled output string, or the first evaluation
error. -/
def renderTemplate (t : Template) (ctx : Frame) : Except MJErrorKind String :=
  match evalStmts t [ctx] with
  | .error e => .error e
  | .ok (_, out) => .ok out

def CHATML_JINJA_TEMPLATE_NAME : String := "chatml"

def MISTRAL_INSTRUCT_TEMPLATE_NAME : String := "mistral-instruct"

def TAIDE_JINJA_TEMPLATE_NAME : String := "taide"

/-- Loop body of the ChatML template (lib.rs line 13): emit the value
start-marker + role + newline + content + end-marker + newline. -/
def chatmlLoopBody : List Stmt :=
  [.emit (.add (.add (.add (.add (.add
      (.lit "<|im_start|>")
      (.getItem (.var "message") "role"))
      (.lit "\n"))
      (.getItem (.var "message") "content"))
      (.lit "<|im_end|>"))
      (.lit "\n"))]

/-- Parsed form of CHATML_JINJA_TEMPLATE (lib.rs line 13): a for-loop over
messages emitting one marked-up turn per message, then an if on
add_generation_prompt emitting the assistant start marker. -/
def CHATML_JINJA_TEMPLATE : Template :=
  [.forLoop "message" (.var "messages") chatmlLoopBody,
   .ifElse [(.var "add_generation_prompt",
             [.emit (.lit "<|im_start|>assistant\n")])] []]

/-- Loop body of the Mistral instruct template (lib.rs line 17): a user
message becomes the bracketed instruction, an assistant message becomes
content + eos_token, any other role emits nothing. -/
def mistralLoopBody : List Stmt :=
  [.ifElse
    [(.eq (.getItem (.var "message") "role") (.lit "user"),
      [.emit (.add (.add (.lit "[INST] ")
                (.getItem (.var "message") "content"))
                (.lit " [/INST]"))]),
     (.eq (.getItem (.var "message") "role") (.lit "assistant"),
      [.emit (.add (.getItem (.var "message") "content") (.var "eos_token"))])]
    []]

/-- Parsed form of MISTRAL_INSTRUCT_TEMPLATE (lib.rs line 17): emit
bos_token, then the per-message loop. -/
def MISTRAL_INSTRUCT_TEMPLATE : Template :=
  [.emit (.var "bos_token"),
   .forLoop "message" (.var "messages") mistralLoopBody]

/-- First statement of the TAIDE loop body (lib.rs line 23): on the
iteration with loop.index0 equal to zero, set content to
system_message + the message content, otherwise to the plain content. -/
def taideContentStmt : Stmt :=
  .ifElse
    [(.eq (.getItem (.var "loop") "index0") (.litInt 0),
      [.setVar "content"
        (.add (.var "system_message") (.getItem (.var "message") "content"))])]
    [.setVar "content" (.getItem (.var "message") "content")]

/-- Second statement of the TAIDE loop body (lib.rs line 23): a user
message becomes bos_token + bracketed content, an assistant message
becomes space + content + space + eos_token, any other role emits
nothing. -/
def taideEmitStmt : Stmt :=
  .ifElse
    [(.eq (.getItem (.var "message") "role") (.lit "user"),
      [.emit (.add (.add (.add (.var "bos_token") (.lit "[INST] "))
                (.var "content"))
                (.lit " [/INST]"))]),
     (.eq (.getItem (.var "message") "role") (.lit "assistant"),
      [.emit (.add (.add (.add (.lit " ") (.var "content")) (.lit " "))
                (.var "eos_token"))])]
    []

/-- Loop body of the TAIDE template (lib.rs line 23). -/
def taideLoopBody : List Stmt := [taideContentStmt, taideEmitStmt]

/-- First top-level statement of the TAIDE template (lib.rs line 23): if
the message at index zero has role system, set loop_messages to messages
from index 1 on and system_message to the SYS header built from its
content, else set loop_messages to messages and system_message to the
empty string. -/
def taideSysStmt : Stmt :=
  .ifElse
    [(.eq (.getItem (.index (.var "messages") 0) "role") (.lit "system"),
      [.setVar "loop_messages" (.slice (.var "messages") 1),
       .setVar "system_message"
         (.add (.add (.lit "<<SYS>>\n")
            (.getItem (.index (.var "messages") 0) "content"))
            (.lit "\n<</SYS>>\n\n"))])]
    [.setVar "loop_messages" (.var "messages"),
     .setVar "system_message" (.lit "")]

/-- Second top-level statement of the TAIDE template: the per-message
loop over loop_messages. -/
def taideForStmt : Stmt := .forLoop "message" (.var "loop_messages") taideLoopBody

/-- Third top-level statement of the TAIDE template: an if on
add_generation_prompt, a variable the TAIDE render context never binds. -/
def taideGenpromptStmt : Stmt :=
  .ifElse [(.var "add_generation_prompt",
            [.emit (.lit "<|im_start|>assistant\n")])] []

/-- Parsed form of TAIDE_JINJA_TEMPLATE (lib.rs line 23). -/
def TAIDE_JINJA_TEMPLATE : Template :=
  [taideSysStmt, taideForStmt, taideGenpromptStmt]

/-- Error enum of apply_chatml_template (lib.rs lines 116-124). -/
inductive ApplyChatMLTemplateError where
  | AddTemplateError (e : MJErrorKind)
  | GetTemplateError (e : MJErrorKind)
  | RenderTemplateError (e : MJErrorKind)
deriving DecidableEq, Repr

/-- Error enum of apply_mistral_instruct_template (lib.rs lines 126-134). -/
inductive ApplyMistralInstructTemplateError where
  | AddTemplateError (e : MJErrorKind)
  | GetTemplateError (e : MJErrorKind)
  | RenderTemplateError (e : MJErrorKind)
deriving DecidableEq, Repr

/-- Error enum of apply_taide_template (lib.rs lines 136-144). -/
inductive ApplyTAIDETemplateError where
  | AddTemplateError (e : MJErrorKind)
  | GetTemplateError (e : MJErrorKind)
  | RenderTemplateError (e : MJErrorKind)
deriving DecidableEq, Repr

/-- Outer error enum of apply_template (lib.rs lines 147-155). -/
inductive ApplyTemplateError where
  | ApplyChatMLTemplateError (e : ApplyChatMLTemplateError)
  | ApplyMistralInstructTemplateError (e : ApplyMistralInstructTemplateError)
  | ApplyTAIDETemplateError (e : ApplyTAIDETemplateError)
deriving DecidableEq, Repr

/-- Render context of apply_chatml_template (lib.rs lines 37-40):
messages and the generation-prompt flag. -/
def chatmlContext (messages : List Message) (add_generation_prompt : Bool) : Frame :=
  [("messages", .vList messages),
   ("add_generation_prompt", .vBool add_generation_prompt)]

/-- Render context of apply_mistral_instruct_template (lib.rs lines
55-62): messages, the flag, and the fixed bos and eos tokens. -/
def mistralContext (messages : List Message) (add_generation_prompt : Bool) : Frame :=
  [("messages", .vList messages),
   ("add_generation_prompt", .vBool add_generation_prompt),
   ("bos_token", .vStr "<s>"),
   ("eos_token", .vStr "</s>")]

/-- Render context of apply_taide_template (lib.rs lines 77-81):
messages and the fixed bos and eos tokens; the generation-prompt flag is
not part of this context. -/
def taideContext (messages : List Message) : Frame :=
  [("messages", .vList messages),
   ("bos_token", .vStr "<s>"),
   ("eos_token", .vStr "</s>")]

/-- apply_chatml_template (lib.rs lines 26-42): fresh environment, add the
template, resolve it, render it; each stage error is wrapped by map_err
in the stage-identifying constructor and propagated by the question-mark
operator, modelled by Except.mapError and Except.bind. -/
def apply_chatml_template (messages : List Message) (add_generation_prompt : Bool) :
    Except ApplyChatMLTemplateError String :=
  Except.bind
    (Except.mapError ApplyChatMLTemplateError.AddTemplateError
      (addTemplate Environment.new CHATML_JINJA_TEMPLATE_NAME CHATML_JINJA_TEMPLATE))
    (fun env =>
      Except.bind
        (Except.mapError ApplyChatMLTemplateError.GetTemplateError
          (getTemplate env CHATML_JINJA_TEMPLATE_NAME))
        (fun template =>
          Except.mapError ApplyChatMLTemplateError.RenderTemplateError
            (renderTemplate template (chatmlContext messages add_generation_prompt))))

/-- apply_mistral_instruct_template (lib.rs lines 44-64). -/
def apply_mistral_instruct_template (messages : List Message) (add_generation_prompt : Bool) :
    Except ApplyMistralInstructTemplateError String :=
  Except.bind
    (Except.mapError ApplyMistralInstructTemplateError.AddTemplateError
      (addTemplate Environment.new MISTRAL_INSTRUCT_TEMPLATE_NAME MISTRAL_INSTRUCT_TEMPLATE))
    (fun env =>
      Except.bind
        (Except.mapError ApplyMistralInstructTemplateError.GetTemplateError
          (getTemplate env MISTRAL_INSTRUCT_TEMPLATE_NAME))
        (fun template =>
          Except.mapError ApplyMistralInstructTemplateError.RenderTemplateError
            (renderTemplate template (mistralContext messages add_generation_prompt))))

/-- apply_taide_template (lib.rs lines 67-83): note that this function
takes no generation-prompt flag. -/
def apply_taide_template (messages : List Message) :
    Except ApplyTAIDETemplateError String :=
  Except.bind
    (Except.mapError ApplyTAIDETemplateError.AddTemplateError
      (addTemplate Environment.new TAIDE_JINJA_TEMPLATE_NAME TAIDE_JINJA_TEMPLATE))
    (fun env =>
      Except.bind
        (Except.mapError ApplyTAIDETemplateError.GetTemplateError
          (getTemplate env TAIDE_JINJA_TEMPLATE_NAME))
        (fun template =>
          Except.mapError ApplyTAIDETemplateError.RenderTemplateError
            (renderTemplate template (taideContext messages))))

/-- The template selector enum (lib.rs lines 86-90). -/
inductive ChatTemplate where
  | ChatML
  | MistralInstruct
  | TAIDE
deriving DecidableEq, Repr

/-- apply_template (lib.rs lines 99-114): dispatch on the selector and
wrap the error of each variant in the variant-identifying constructor; the
TAIDE arm drops the generation-prompt flag. -/
def apply_template (template : ChatTemplate) (messages : List Message)
    (add_generation_prompt : Bool) : Except ApplyTemplateError String :=
  match template with
  | .ChatML =>
    Except.mapError ApplyTemplateError.ApplyChatMLTemplateError
      (apply_chatml_template messages add_generation_prompt)
  | .MistralInstruct =>
    Except.mapError ApplyTemplateError.ApplyMistralInstructTemplateError
      (apply_mistral_instruct_template messages add_generation_prompt)
  | .TAIDE =>
    Except.mapError ApplyTemplateError.ApplyTAIDETemplateError
      (apply_taide_template messages)

/-- In-order concatenation of a per-message segment function over a
conversation. -/
def concatMap (f : Message → String) : List Message → String
  | [] => ""
  | m :: rest => f m ++ concatMap f rest

/-- Spec-side segment of the ChatML variant: each message becomes
start-marker + role + newline + content + end-marker + newline. -/
def chatmlSegSpec (m : Message) : String :=
  "<|im_start|>" ++ m.role ++ "\n" ++ m.content ++ "<|im_end|>" ++ "\n"

/-- Spec-side segment of the Mistral instruct variant: user messages are
bracketed, assistant messages carry the eos token, other roles vanish. -/
def mistralSegSpec (m : Message) : String :=
  if m.role = "user" then "[INST] " ++ m.content ++ " [/INST]"
  else if m.role = "assistant" then m.content ++ "</s>"
  else ""

/-- Spec-side system header of the TAIDE variant. -/
def taideHeaderSpec (c : String) : String :=
  "<<SYS>>\n" ++ c ++ "\n<</SYS>>\n\n"

/-- Spec-side segment of the TAIDE variant for a message rendered with
plain (unmerged) content. -/
def taideSegSpec (m : Message) : String :=
  if m.role = "user" then "<s>" ++ "[INST] " ++ m.content ++ " [/INST]"
  else if m.role = "assistant" then " " ++ m.content ++ " " ++ "</s>"
  else ""

/-- Spec-side rendering of the TAIDE per-message loop started at a given
iteration index: the system header is prefixed onto the content of the
message at index zero only. -/
def taideLoopSpec (sys : String) : List Message → Nat → String
  | [], _ => ""
  | m :: rest, i =>
    taideSegSpec { m with content := if i = 0 then sys ++ m.content else m.content } ++
      taideLoopSpec sys rest (i + 1)

end ChatTemplates

namespace ChatTemplates

@[simp] theorem except_bind_ok {α β ε : Type} (x : α) (f : α → Except ε β) :
    Except.bind (.ok x) f = f x := rfl

@[simp] theorem except_bind_error {α β ε : Type} (e : ε) (f : α → Except ε β) :
    Except.bind (.error e) f = .error e := rfl

@[simp] theorem except_mapError_ok {α ε ε' : Type} (f : ε → ε') (x : α) :
    Except.mapError f (Except.ok x) = .ok x := rfl

@[simp] theorem except_mapError_error {α ε ε' : Type} (f : ε → ε') (e : ε) :
    Except.mapError f (Except.error e : Except ε α) = .error (f e) := rfl

theorem addTemplate_run (env : Environment) (n : String) (t : Template) :
    addTemplate env n t = .ok ((n, t) :: env) := rfl

/-- Resolving a name just registered in a fresh environment succeeds with
the registered template. -/
theorem getTemplate_fresh (n : String) (t : Template) :
    getTemplate ((n, t) :: Environment.new) n = .ok t := by
  simp [getTemplate, envFind, Environment.new]

theorem evalStmts_cons_ok (s : Stmt) (rest : List Stmt) (env env1 env2 : Env)
    (o1 o2 : String) (h1 : evalStmt s env = .ok (env1, o1))
    (h2 : evalStmts rest env1 = .ok (env2, o2)) :
    evalStmts (s :: rest) env = .ok (env2, o1 ++ o2) := by
  rw [evalStmts.eq_2, h1]
  simp only []
  rw [h2]

theorem evalStmts_cons_error (s : Stmt) (rest : List Stmt) (env : Env)
    (e : MJErrorKind) (h1 : evalStmt s env = .error e) :
    evalStmts (s :: rest) env = .error e := by
  rw [evalStmts.eq_2, h1]

theorem renderTemplate_ok (t : Template) (ctx : Frame) (env : Env) (out : String)
    (h : evalStmts t [ctx] = .ok (env, out)) : renderTemplate t ctx = .ok out := by
  rw [renderTemplate, h]

theorem renderTemplate_error (t : Template) (ctx : Frame) (e : MJErrorKind)
    (h : evalStmts t [ctx] = .error e) : renderTemplate t ctx = .error e := by
  rw [renderTemplate, h]

theorem evalForLoop_cons_ok (x : String) (m : Message) (rest : List Message)
    (i : Nat) (body : List Stmt) (env envB : Env) (o1 o2 : String)
    (h1 : evalStmts body ([(x, .vMsg m), ("loop", .vLoop i)] :: env) = .ok (envB, o1))
    (h2 : evalForLoop x rest (i + 1) body env = .ok o2) :
    evalForLoop x (m :: rest) i body env = .ok (o1 ++ o2) := by
  rw [evalForLoop.eq_2, h1]
  simp only []
  rw [h2]

theorem evalStmt_forLoop_ok (x : String) (seqE : Expr) (body : List Stmt)
    (env : Env) (l : List Message) (out : String)
    (h1 : evalExpr seqE env = .ok (.vList l))
    (h2 : evalForLoop x l 0 body env = .ok out) :
    evalStmt (.forLoop x seqE body) env = .ok (env, out) := by
  rw [evalStmt.eq_3, h1]
  simp only []
  rw [h2]

theorem evalStmts_singleton_ok (s : Stmt) (env env1 : Env) (o : String)
    (h : evalStmt s env = .ok (env1, o)) : evalStmts [s] env = .ok (env1, o) := by
  have h2 := evalStmts_cons_ok s [] env env1 env1 o "" h (evalStmts.eq_1 _)
  simpa using h2

theorem evalStmt_emit_ok (e : Expr) (env : Env) (v : Value)
    (h : evalExpr e env = .ok v) :
    evalStmt (.emit e) env = .ok (env, printValue v) := by
  rw [evalStmt.eq_1, h]

theorem evalStmt_set_ok (x : String) (e : Expr) (env : Env) (v : Value)
    (h : evalExpr e env = .ok v) :
    evalStmt (.setVar x e) env = .ok (setInHead env x v, "") := by
  rw [evalStmt.eq_2, h]

theorem evalIf_cons_true (c : Expr) (body : List Stmt)
    (rest : List (Expr × List Stmt)) (els : List Stmt) (env : Env) (v : Value)
    (h1 : evalExpr c env = .ok v) (h2 : truthy v = true) :
    evalIf ((c, body) :: rest) els env = evalStmts body env := by
  rw [evalIf.eq_2, h1]
  simp only [h2]

theorem evalIf_cons_false (c : Expr) (body : List Stmt)
    (rest : List (Expr × List Stmt)) (els : List Stmt) (env : Env) (v : Value)
    (h1 : evalExpr c env = .ok v) (h2 : truthy v = false) :
    evalIf ((c, body) :: rest) els env = evalIf rest els env := by
  rw [evalIf.eq_2, h1]
  simp only [h2]

theorem evalIf_cons_error (c : Expr) (body : List Stmt)
    (rest : List (Expr × List Stmt)) (els : List Stmt) (env : Env)
    (e : MJErrorKind) (h1 : evalExpr c env = .error e) :
    evalIf ((c, body) :: rest) els env = .error e := by
  rw [evalIf.eq_2, h1]

theorem chatml_body_run (m : Message) (i : Nat) (env : Env) :
    evalStmts chatmlLoopBody ([("message", .vMsg m), ("loop", .vLoop i)] :: env) =
      .ok (([("message", .vMsg m), ("loop", .vLoop i)] :: env), chatmlSegSpec m) := by
  simp [chatmlLoopBody, evalStmts, evalStmt, evalExpr, lookupVar, lookupFrame,
    getItemVal, addVal, printValue, chatmlSegSpec]

theorem chatml_loop_run (msgs : List Message) (i : Nat) (env : Env) :
    evalForLoop "message" msgs i chatmlLoopBody env =
      .ok (concatMap chatmlSegSpec msgs) := by
  induction msgs generalizing i with
  | nil => simp [evalForLoop, concatMap]
  | cons m rest ih =>
    simp [evalForLoop, chatml_body_run, ih, concatMap]

theorem chatml_for_stmt_run (msgs : List Message) (flag : Bool) :
    evalStmt (.forLoop "message" (.var "messages") chatmlLoopBody)
        [chatmlContext msgs flag] =
      .ok ([chatmlContext msgs flag], concatMap chatmlSegSpec msgs) := by
  simp only [evalStmt, evalExpr, chatmlContext, lookupVar, lookupFrame]
  norm_num
  rw [chatml_loop_run]

theorem chatml_genprompt_stmt_run (msgs : List Message) (flag : Bool) :
    evalStmt (.ifElse [(.var "add_generation_prompt",
        [.emit (.lit "<|im_start|>assistant\n")])] [])
        [chatmlContext msgs flag] =
      .ok ([chatmlContext msgs flag],
        if flag then "<|im_start|>assistant\n" else "") := by
  cases flag <;>
    · simp only [evalStmt, evalIf, evalExpr, chatmlContext, lookupVar,
        lookupFrame, evalStmts, truthy, printValue]
      simp

theorem chatml_render_run (msgs : List Message) (flag : Bool) :
    renderTemplate CHATML_JINJA_TEMPLATE (chatmlContext msgs flag) =
      .ok (concatMap chatmlSegSpec msgs ++
            (if flag then "<|im_start|>assistant\n" else "")) := by
  rw [renderTemplate, CHATML_JINJA_TEMPLATE, evalStmts.eq_2, chatml_for_stmt_run]
  simp only []
  rw [evalStmts.eq_2, chatml_genprompt_stmt_run]
  simp only []
  rw [evalStmts.eq_1]
  simp [String.append_empty]

theorem apply_chatml_run (msgs : List Message) (flag : Bool) :
    apply_chatml_template msgs flag =
      .ok (concatMap chatmlSegSpec msgs ++
            (if flag then "<|im_start|>assistant\n" else "")) := by
  rw [apply_chatml_template, addTemplate_run, except_mapError_ok, except_bind_ok,
    getTemplate_fresh, except_mapError_ok, except_bind_ok, chatml_render_run,
    except_mapError_ok]

theorem mistral_body_run (m : Message) (i : Nat) (msgs : List Message) (flag : Bool) :
    evalStmts mistralLoopBody
        ([("message", .vMsg m), ("loop", .vLoop i)] :: [mistralContext msgs flag]) =
      .ok (([("message", .vMsg m), ("loop", .vLoop i)] :: [mistralContext msgs flag]),
        mistralSegSpec m) := by
  by_cases hu : m.role = "user"
  · simp [mistralLoopBody, evalStmts, evalStmt, evalIf, evalExpr, lookupVar,
      lookupFrame, getItemVal, valueEq, truthy, printValue, addVal,
      mistralContext, mistralSegSpec, hu]
  · have hu' : (m.role == "user") = false := by simp [hu]
    by_cases ha : m.role = "assistant"
    · simp [mistralLoopBody, evalStmts, evalStmt, evalIf, evalExpr, lookupVar,
        lookupFrame, getItemVal, valueEq, truthy, printValue, addVal,
        mistralContext, mistralSegSpec, hu, hu', ha]
    · have ha' : (m.role == "assistant") = false := by simp [ha]
      simp [mistralLoopBody, evalStmts, evalStmt, evalIf, evalExpr, lookupVar,
        lookupFrame, getItemVal, valueEq, truthy, printValue, addVal,
        mistralContext, mistralSegSpec, hu, hu', ha, ha']

theorem mistral_loop_run (rest : List Message) (i : Nat) (msgs : List Message) (flag : Bool) :
    evalForLoop "message" rest i mistralLoopBody [mistralContext msgs flag] =
      .ok (concatMap mistralSegSpec rest) := by
  induction rest generalizing i with
  | nil => simp [evalForLoop, concatMap]
  | cons m tl ih =>
    simp [evalForLoop, mistral_body_run, ih, concatMap]

theorem mistral_bos_stmt_run (msgs : List Message) (flag : Bool) :
    evalStmt (.emit (.var "bos_token")) [mistralContext msgs flag] =
      .ok ([mistralContext msgs flag], "<s>") := by
  simp only [evalStmt, evalExpr, lookupVar, lookupFrame, mistralContext]
  simp [printValue]

theorem mistral_for_stmt_run (msgs : List Message) (flag : Bool) :
    evalStmt (.forLoop "message" (.var "messages") mistralLoopBody)
        [mistralContext msgs flag] =
      .ok ([mistralContext msgs flag], concatMap mistralSegSpec msgs) := by
  simp only [evalStmt, evalExpr, mistralContext, lookupVar, lookupFrame]
  norm_num
  rw [show [("messages", Value.vList msgs), ("add_generation_prompt", Value.vBool flag),
        ("bos_token", Value.vStr "<s>"), ("eos_token", Value.vStr "</s>")] =
      mistralContext msgs flag from rfl, mistral_loop_run]

theorem mistral_render_run (msgs : List Message) (flag : Bool) :
    renderTemplate MISTRAL_INSTRUCT_TEMPLATE (mistralContext msgs flag) =
      .ok ("<s>" ++ concatMap mistralSegSpec msgs) := by
  have h2 : evalStmts [Stmt.forLoop "message" (.var "messages") mistralLoopBody]
      [mistralContext msgs flag] =
      .ok ([mistralContext msgs flag], concatMap mistralSegSpec msgs ++ "") :=
    evalStmts_cons_ok _ _ _ _ _ _ _ (mistral_for_stmt_run msgs flag)
      (evalStmts.eq_1 _)
  have h1 : evalStmts MISTRAL_INSTRUCT_TEMPLATE [mistralContext msgs flag] =
      .ok ([mistralContext msgs flag], "<s>" ++ (concatMap mistralSegSpec msgs ++ "")) :=
    evalStmts_cons_ok _ _ _ _ _ _ _ (mistral_bos_stmt_run msgs flag) h2
  rw [renderTemplate_ok _ _ _ _ h1]
  simp [String.append_empty]

theorem apply_mistral_run (msgs : List Message) (flag : Bool) :
    apply_mistral_instruct_template msgs flag =
      .ok ("<s>" ++ concatMap mistralSegSpec msgs) := by
  rw [apply_mistral_instruct_template, addTemplate_run, except_mapError_ok,
    except_bind_ok, getTemplate_fresh, except_mapError_ok, except_bind_ok,
    mistral_render_run, except_mapError_ok]

theorem taide_content_stmt_run (m : Message) (i : Nat) (sys : String) (env : Env)
    (hs : lookupVar env "system_message" = .vStr sys) :
    evalStmt taideContentStmt ([("message", .vMsg m), ("loop", .vLoop i)] :: env) =
      .ok ((("content", .vStr (if i = 0 then sys ++ m.content else m.content)) ::
              [("message", .vMsg m), ("loop", .vLoop i)]) :: env, "") := by
  by_cases hi : i = 0
  · simp [taideContentStmt, evalStmt, evalIf, evalStmts, evalExpr, lookupVar,
      lookupFrame, getItemVal, valueEq, truthy, addVal, setInHead, hi, hs]
  · have hi' : ((i : Int) == 0) = false := by simp [hi]
    simp [taideContentStmt, evalStmt, evalIf, evalStmts, evalExpr, lookupVar,
      lookupFrame, getItemVal, valueEq, truthy, addVal, setInHead, hi, hi', hs]

theorem taide_emit_stmt_run (m : Message) (i : Nat) (cv : String) (env : Env)
    (hb : lookupVar env "bos_token" = .vStr "<s>")
    (he : lookupVar env "eos_token" = .vStr "</s>") :
    evalStmt taideEmitStmt
        ((("content", .vStr cv) :: [("message", .vMsg m), ("loop", .vLoop i)]) :: env) =
      .ok ((("content", .vStr cv) :: [("message", .vMsg m), ("loop", .vLoop i)]) :: env,
        taideSegSpec { m with content := cv }) := by
  by_cases hu : m.role = "user"
  · simp [taideEmitStmt, evalStmt, evalIf, evalStmts, evalExpr, lookupVar,
      lookupFrame, getItemVal, valueEq, truthy, printValue, addVal,
      taideSegSpec, hu, hb, he]
  · have hu' : (m.role == "user") = false := by simp [hu]
    by_cases ha : m.role = "assistant"
    · simp [taideEmitStmt, evalStmt, evalIf, evalStmts, evalExpr, lookupVar,
        lookupFrame, getItemVal, valueEq, truthy, printValue, addVal,
        taideSegSpec, hu, hu', ha, hb, he]
    · have ha' : (m.role == "assistant") = false := by simp [ha]
      simp [taideEmitStmt, evalStmt, evalIf, evalStmts, evalExpr, lookupVar,
        lookupFrame, getItemVal, valueEq, truthy, printValue, addVal,
        taideSegSpec, hu, hu', ha, ha', hb, he]

theorem taide_body_run (m : Message) (i : Nat) (sys : String) (env : Env)
    (hs : lookupVar env "system_message" = .vStr sys)
    (hb : lookupVar env "bos_token" = .vStr "<s>")
    (he : lookupVar env "eos_token" = .vStr "</s>") :
    evalStmts taideLoopBody ([("message", .vMsg m), ("loop", .vLoop i)] :: env) =
      .ok ((("content", .vStr (if i = 0 then sys ++ m.content else m.content)) ::
              [("message", .vMsg m), ("loop", .vLoop i)]) :: env,
        taideSegSpec { m with content := if i = 0 then sys ++ m.content else m.content }) := by
  have h := evalStmts_cons_ok taideContentStmt [taideEmitStmt] _ _ _ _ _
    (taide_content_stmt_run m i sys env hs)
    (evalStmts_singleton_ok _ _ _ _ (taide_emit_stmt_run m i
      (if i = 0 then sys ++ m.content else m.content) env hb he))
  simpa [taideLoopBody] using h

theorem taide_loop_run (rest : List Message) (i : Nat) (sys : String) (env : Env)
    (hs : lookupVar env "system_message" = .vStr sys)
    (hb : lookupVar env "bos_token" = .vStr "<s>")
    (he : lookupVar env "eos_token" = .vStr "</s>") :
    evalForLoop "message" rest i taideLoopBody env = .ok (taideLoopSpec sys rest i) := by
  induction rest generalizing i with
  | nil => rw [evalForLoop.eq_1, taideLoopSpec]
  | cons m tl ih =>
    rw [taideLoopSpec]
    exact evalForLoop_cons_ok _ _ _ _ _ _ _ _ _
      (taide_body_run m i sys env hs hb he) (ih (i + 1))

theorem taide_sys_stmt_system (m : Message) (rest : List Message)
    (h : m.role = "system") :
    evalStmt taideSysStmt [taideContext (m :: rest)] =
      .ok ([("system_message", .vStr (taideHeaderSpec m.content)) ::
            ("loop_messages", .vList rest) :: taideContext (m :: rest)], "") := by
  simp [taideSysStmt, evalStmt, evalIf, evalStmts, evalExpr, lookupVar,
    lookupFrame, getItemVal, indexVal, sliceVal, addVal, valueEq, truthy,
    setInHead, taideContext, taideHeaderSpec, h]

theorem taide_sys_stmt_empty :
    evalStmt taideSysStmt [taideContext []] = .error .undefinedError := by
  simp [taideSysStmt, evalStmt, evalIf, evalExpr, lookupVar, lookupFrame,
    getItemVal, indexVal, taideContext]

theorem taide_for_stmt_sys (m : Message) (rest : List Message) :
    evalStmt taideForStmt
        [("system_message", .vStr (taideHeaderSpec m.content)) ::
         ("loop_messages", .vList rest) :: taideContext (m :: rest)] =
      .ok ([("system_message", .vStr (taideHeaderSpec m.content)) ::
            ("loop_messages", .vList rest) :: taideContext (m :: rest)],
        taideLoopSpec (taideHeaderSpec m.content) rest 0) := by
  refine evalStmt_forLoop_ok _ _ _ _ rest _ ?_ ?_
  · simp [evalExpr, lookupVar, lookupFrame, taideContext]
  · exact taide_loop_run rest 0 (taideHeaderSpec m.content) _
      (by simp [lookupVar, lookupFrame])
      (by simp [lookupVar, lookupFrame, taideContext])
      (by simp [lookupVar, lookupFrame, taideContext])

theorem taide_genprompt_run (env : Env)
    (h : lookupVar env "add_generation_prompt" = .vUndefined) :
    evalStmt taideGenpromptStmt env = .ok (env, "") := by
  simp [taideGenpromptStmt, evalStmt, evalIf, evalStmts, evalExpr, h, truthy]

theorem taide_render_sys (m : Message) (rest : List Message)
    (h : m.role = "system") :
    renderTemplate TAIDE_JINJA_TEMPLATE (taideContext (m :: rest)) =
      .ok (taideLoopSpec (taideHeaderSpec m.content) rest 0) := by
  have hgp : lookupVar
      [("system_message", .vStr (taideHeaderSpec m.content)) ::
       ("loop_messages", .vList rest) :: taideContext (m :: rest)]
      "add_generation_prompt" = .vUndefined := by
    simp [lookupVar, lookupFrame, taideContext]
  have h1 : evalStmts TAIDE_JINJA_TEMPLATE [taideContext (m :: rest)] =
      .ok ([("system_message", .vStr (taideHeaderSpec m.content)) ::
            ("loop_messages", .vList rest) :: taideContext (m :: rest)],
        "" ++ (taideLoopSpec (taideHeaderSpec m.content) rest 0 ++ "")) :=
    evalStmts_cons_ok _ _ _ _ _ _ _ (taide_sys_stmt_system m rest h)
      (evalStmts_cons_ok _ _ _ _ _ _ _ (taide_for_stmt_sys m rest)
        (evalStmts_singleton_ok _ _ _ _ (taide_genprompt_run _ hgp)))
  rw [renderTemplate_ok _ _ _ _ h1]
  simp

theorem taide_render_empty :
    renderTemplate TAIDE_JINJA_TEMPLATE (taideContext []) =
      .error .undefinedError := by
  have h1 : evalStmts TAIDE_JINJA_TEMPLATE [taideContext []] =
      .error .undefinedError :=
    evalStmts_cons_error _ _ _ _ taide_sys_stmt_empty
  exact renderTemplate_error _ _ _ h1

theorem apply_taide_sys (m : Message) (rest : List Message)
    (h : m.role = "system") :
    apply_taide_template (m :: rest) =
      .ok (taideLoopSpec (taideHeaderSpec m.content) rest 0) := by
  rw [apply_taide_template, addTemplate_run, except_mapError_ok, except_bind_ok,
    getTemplate_fresh, except_mapError_ok, except_bind_ok, taide_render_sys m rest h,
    except_mapError_ok]

theorem apply_taide_empty :
    apply_taide_template [] =
      .error (.RenderTemplateError .undefinedError) := by
  rw [apply_taide_template, addTemplate_run, except_mapError_ok, except_bind_ok,
    getTemplate_fresh, except_mapError_ok, except_bind_ok, taide_render_empty,
    except_mapError_error]

/-- Away from iteration index zero the TAIDE loop renders plain segments:
no header text is merged into any message after the first. -/
theorem taideLoopSpec_pos (l : List Message) (sys : String) (i : Nat)
    (h : i ≠ 0) : taideLoopSpec sys l i = concatMap taideSegSpec l := by
  induction l generalizing i with
  | nil => rw [taideLoopSpec, concatMap]
  | cons m tl ih =>
    rw [taideLoopSpec, concatMap, if_neg h, ih (i + 1) (Nat.succ_ne_zero i)]

theorem concatMap_append (f : Message → String) (l1 l2 : List Message) :
    concatMap f (l1 ++ l2) = concatMap f l1 ++ concatMap f l2 := by
  induction l1 with
  | nil => simp [concatMap]
  | cons m tl ih => simp [concatMap, ih, String.append_assoc]

/-- C1: for the ChatML variant, the rendered output is the in-order
concatenation of start-marker + role + newline + content + end-marker +
newline for each message, followed by the assistant start marker exactly
when the generation-prompt flag is true. -/
theorem claim_C1_chatml_concatenation (msgs : List Message) (flag : Bool) :
    apply_template ChatTemplate.ChatML msgs flag =
      .ok (concatMap chatmlSegSpec msgs ++
            (if flag then "<|im_start|>assistant\n" else "")) := by
  simp only [apply_template]
  rw [apply_chatml_run, except_mapError_ok]

/-- C2: for the Mistral instruct variant the output is the leading
boundary token followed by the in-order per-message segments (user
messages bracketed, assistant messages closed by the end token, other
roles skipped); in particular a five-turn alternating conversation ends
on the closing bracket of the final user message with no trailing end token. -/
theorem claim_C2_mistral_shape :
    (∀ (msgs : List Message) (flag : Bool),
      apply_template ChatTemplate.MistralInstruct msgs flag =
        .ok ("<s>" ++ concatMap mistralSegSpec msgs)) ∧
    (∀ (c1 c2 c3 c4 c5 : String) (flag : Bool),
      apply_template ChatTemplate.MistralInstruct
          [⟨"user", c1⟩, ⟨"assistant", c2⟩, ⟨"user", c3⟩,
           ⟨"assistant", c4⟩, ⟨"user", c5⟩] flag =
        .ok ("<s>" ++ ("[INST] " ++ c1 ++ " [/INST]") ++ (c2 ++ "</s>") ++
              ("[INST] " ++ c3 ++ " [/INST]") ++ (c4 ++ "</s>") ++
              ("[INST] " ++ c5 ++ " [/INST]"))) := by
  constructor
  · intro msgs flag
    simp only [apply_template]
    rw [apply_mistral_run, except_mapError_ok]
  · intro c1 c2 c3 c4 c5 flag
    simp only [apply_template]
    rw [apply_mistral_run, except_mapError_ok]
    simp [concatMap, mistralSegSpec, String.append_assoc]

/-- C3 counterexample: for the conversation consisting only of a system
message, the TAIDE variant renders the empty string, so the header built
from the system content is not emitted at all, let alone exactly once. -/
theorem claim_C3_counterexample :
    apply_template ChatTemplate.TAIDE [⟨"system", "Sys"⟩] true = .ok "" ∧
    ¬ ∃ pre post : String,
        ("" : String) = pre ++ "<<SYS>>\nSys\n<</SYS>>\n\n" ++ post := by
  constructor
  · simp only [apply_template]
    rw [apply_taide_sys ⟨"system", "Sys"⟩ [] rfl, except_mapError_ok,
      taideLoopSpec]
  · rintro ⟨pre, post, hE⟩
    have hlen := congrArg String.length hE
    simp [String.length_append] at hlen
    have hpos : 0 < ("<<SYS>>\nSys\n<</SYS>>\n\n" : String).length := by decide
    omega

/-- C3 amended: for every conversation whose first message has role
system and which contains at least one further message, the header is
prefixed exactly once onto the content of the immediately following
message before per-role rendering, and no header text is merged into any
later message; the reference example renders as stated.  (A conversation
whose only message is the system message renders to the empty string,
dropping the header.) -/
theorem claim_C3_amended :
    (∀ (s m : Message) (rest : List Message) (flag : Bool),
      s.role = "system" →
      apply_template ChatTemplate.TAIDE (s :: m :: rest) flag =
        .ok (taideSegSpec { m with content := taideHeaderSpec s.content ++ m.content } ++
              concatMap taideSegSpec rest)) ∧
    apply_template ChatTemplate.TAIDE [⟨"system", "Sys"⟩, ⟨"user", "Q1"⟩] true =
      .ok "<s>[INST] <<SYS>>\nSys\n<</SYS>>\n\nQ1 [/INST]" := by
  have hmain : ∀ (s m : Message) (rest : List Message) (flag : Bool),
      s.role = "system" →
      apply_template ChatTemplate.TAIDE (s :: m :: rest) flag =
        .ok (taideSegSpec { m with content := taideHeaderSpec s.content ++ m.content } ++
              concatMap taideSegSpec rest) := by
    intro s m rest flag h
    simp only [apply_template]
    rw [apply_taide_sys s (m :: rest) h, except_mapError_ok, taideLoopSpec,
      taideLoopSpec_pos rest _ 1 one_ne_zero]
    simp
  refine ⟨hmain, ?_⟩
  rw [hmain ⟨"system", "Sys"⟩ ⟨"user", "Q1"⟩ [] true rfl]
  simp [taideSegSpec, taideHeaderSpec, concatMap]

/-- C3 witness: the amended statement applied to a concrete conversation
with a system message followed by an assistant message. -/
theorem claim_C3_witness :
    apply_template ChatTemplate.TAIDE [⟨"system", "S"⟩, ⟨"assistant", "A"⟩] false =
      .ok (taideSegSpec ⟨"assistant", taideHeaderSpec "S" ++ "A"⟩ ++
            concatMap taideSegSpec []) :=
  claim_C3_amended.1 ⟨"system", "S"⟩ ⟨"assistant", "A"⟩ [] false rfl

/-- C4: for the Mistral instruct and TAIDE variants, the value of the
generation-prompt flag has no effect on the result. -/
theorem claim_C4_flag_noop (msgs : List Message) (f1 f2 : Bool) :
    apply_template ChatTemplate.MistralInstruct msgs f1 =
      apply_template ChatTemplate.MistralInstruct msgs f2 ∧
    apply_template ChatTemplate.TAIDE msgs f1 =
      apply_template ChatTemplate.TAIDE msgs f2 := by
  constructor
  · simp only [apply_template]
    rw [apply_mistral_run, apply_mistral_run]
  · simp only [apply_template]

/-- C5 counterexample: the TAIDE variant fails on the empty conversation
with a render error, because its template reads the role field of
messages at index zero and that lookup yields the undefined value. -/
theorem claim_C5_counterexample :
    apply_template ChatTemplate.TAIDE [] true =
      .error (ApplyTemplateError.ApplyTAIDETemplateError
        (ApplyTAIDETemplateError.RenderTemplateError MJErrorKind.undefinedError)) := by
  simp only [apply_template]
  rw [apply_taide_empty, except_mapError_error]

/-- C5 amended: rendering the empty conversation succeeds for the ChatML
and Mistral instruct variants (for every flag value), but fails for the
TAIDE variant with a render error caused by the undefined lookup
messages at index zero. -/
theorem claim_C5_amended (flag : Bool) :
    apply_template ChatTemplate.ChatML [] flag =
      .ok (if flag then "<|im_start|>assistant\n" else "") ∧
    apply_template ChatTemplate.MistralInstruct [] flag = .ok "<s>" ∧
    apply_template ChatTemplate.TAIDE [] flag =
      .error (ApplyTemplateError.ApplyTAIDETemplateError
        (ApplyTAIDETemplateError.RenderTemplateError MJErrorKind.undefinedError)) := by
  refine ⟨?_, ?_, ?_⟩
  · simp only [apply_template]
    rw [apply_chatml_run, except_mapError_ok]
    simp [concatMap]
  · simp only [apply_template]
    rw [apply_mistral_run, except_mapError_ok]
    simp [concatMap]
  · simp only [apply_template]
    rw [apply_taide_empty, except_mapError_error]

/-- C6: the ChatML variant renders the empty conversation to the empty
string when the flag is false, and to exactly the assistant start marker
when the flag is true. -/
theorem claim_C6_chatml_empty :
    apply_template ChatTemplate.ChatML [] false = .ok "" ∧
    apply_template ChatTemplate.ChatML [] true = .ok "<|im_start|>assistant\n" := by
  constructor <;>
    · simp only [apply_template]
      rw [apply_chatml_run, except_mapError_ok]
      simp [concatMap]

/-- C7: in the Mistral instruct variant a message whose role is neither
user nor assistant contributes no text: removing it leaves the output
unchanged. -/
theorem claim_C7_role_filtering (pre post : List Message) (m : Message)
    (flag : Bool) (h1 : m.role ≠ "user") (h2 : m.role ≠ "assistant") :
    apply_template ChatTemplate.MistralInstruct (pre ++ m :: post) flag =
      apply_template ChatTemplate.MistralInstruct (pre ++ post) flag := by
  simp only [apply_template]
  rw [apply_mistral_run, apply_mistral_run]
  have hseg : mistralSegSpec m = "" := by simp [mistralSegSpec, h1, h2]
  rw [concatMap_append, concatMap_append, concatMap, hseg]
  simp

/-- C7 witness: removing a system-role message from a one-message
conversation leaves the Mistral instruct output unchanged. -/
theorem claim_C7_witness :
    apply_template ChatTemplate.MistralInstruct ([] ++ ⟨"system", "x"⟩ :: []) true =
      apply_template ChatTemplate.MistralInstruct ([] ++ []) true :=
  claim_C7_role_filtering [] [] ⟨"system", "x"⟩ true (by simp) (by simp)

/-- C8: apply_template is deterministic: two renders of the same
template, conversation and flag yield the same result. -/
theorem claim_C8_determinism (t : ChatTemplate) (msgs : List Message)
    (flag : Bool) (r1 r2 : Except ApplyTemplateError String)
    (h1 : r1 = apply_template t msgs flag)
    (h2 : r2 = apply_template t msgs flag) : r1 = r2 :=
  h1.trans h2.symm

/-- C8 witness: two renders of the ChatML variant on a concrete input
agree. -/
theorem claim_C8_witness :
    apply_template ChatTemplate.ChatML [⟨"user", "hi"⟩] true =
      apply_template ChatTemplate.ChatML [⟨"user", "hi"⟩] true :=
  claim_C8_determinism ChatTemplate.ChatML [⟨"user", "hi"⟩] true _ _ rfl rfl

/-- C9: apply_template returns either the complete rendered string of the
selected variant or the variant-identifying outer error constructor
wrapping the inner cause unchanged; for each variant the registration
and resolution stages succeed, so the result of the apply function is exactly
the render result with render errors wrapped by the render-stage
constructor — no default or partial string is substituted on failure. -/
theorem claim_C9_error_wrapping (msgs : List Message) (flag : Bool) :
    apply_template ChatTemplate.ChatML msgs flag =
      Except.mapError ApplyTemplateError.ApplyChatMLTemplateError
        (apply_chatml_template msgs flag) ∧
    apply_template ChatTemplate.MistralInstruct msgs flag =
      Except.mapError ApplyTemplateError.ApplyMistralInstructTemplateError
        (apply_mistral_instruct_template msgs flag) ∧
    apply_template ChatTemplate.TAIDE msgs flag =
      Except.mapError ApplyTemplateError.ApplyTAIDETemplateError
        (apply_taide_template msgs) ∧
    apply_chatml_template msgs flag =
      Except.mapError ApplyChatMLTemplateError.RenderTemplateError
        (renderTemplate CHATML_JINJA_TEMPLATE (chatmlContext msgs flag)) ∧
    apply_mistral_instruct_template msgs flag =
      Except.mapError ApplyMistralInstructTemplateError.RenderTemplateError
        (renderTemplate MISTRAL_INSTRUCT_TEMPLATE (mistralContext msgs flag)) ∧
    apply_taide_template msgs =
      Except.mapError ApplyTAIDETemplateError.RenderTemplateError
        (renderTemplate TAIDE_JINJA_TEMPLATE (taideContext msgs)) := by
  refine ⟨?_, ?_, ?_, ?_, ?_, ?_⟩
  · simp only [apply_template]
  · simp only [apply_template]
  · simp only [apply_template]
  · rw [apply_chatml_template, addTemplate_run, except_mapError_ok,
      except_bind_ok, getTemplate_fresh, except_mapError_ok, except_bind_ok]
  · rw [apply_mistral_instruct_template, addTemplate_run, except_mapError_ok,
      except_bind_ok, getTemplate_fresh, except_mapError_ok, except_bind_ok]
  · rw [apply_taide_template, addTemplate_run, except_mapError_ok,
      except_bind_ok, getTemplate_fresh, except_mapError_ok, except_bind_ok]

/-- C10: the TAIDE variant renders a conversation consisting of exactly
one system message to the empty string: the header built from its
content is silently dropped because there is no following message. -/
theorem claim_C10_taide_system_only (c : String) (flag : Bool) :
    apply_template ChatTemplate.TAIDE [⟨"system", c⟩] flag = .ok "" := by
  simp only [apply_template]
  rw [apply_taide_sys ⟨"system", c⟩ [] rfl, except_mapError_ok, taideLoopSpec]

end ChatTemplates
